import Mathlib

/-!
Shallow embedding of the `vault_exporter` collection adapter (`src/main.go`).

The program is a Prometheus collector over Vault's health API.  The parts
embedded here are the package-level metric descriptors, `bool2float`,
`Exporter`, `NewExporter`, `Exporter.Describe`, `Exporter.Collect`, and the
startup behaviour of `main`.  A channel send sequence becomes a Lean list in
send order; the upstream health query `e.client.Sys().Health()` becomes an
explicit `Except HealthError HealthResponse` input, since the network outcome
is external to this program; logging is an external side effect and carries no
data into the result, so it is not modelled.
-/

set_option autoImplicit false

namespace VaultExporter

/-- `prometheus.BuildFQName` from the prometheus client library (an external
collaborator of `src/main.go`): joins non-empty name parts with `_`, returning
`""` when `name` is empty. -/
def buildFQName (ns subsystem name : String) : String :=
  if name = "" then ""
  else if ns ≠ "" ∧ subsystem ≠ "" then ns ++ "_" ++ subsystem ++ "_" ++ name
  else if ns ≠ "" then ns ++ "_" ++ name
  else if subsystem ≠ "" then subsystem ++ "_" ++ name
  else name

/-- `const namespace = "vault"` (`src/main.go` line 16); `namespace` is a Lean
keyword, hence the trailing underscore. -/
def namespace_ : String := "vault"

/-- A Prometheus metric descriptor as `src/main.go` builds them with
`prometheus.NewDesc(fqName, help, variableLabels, constLabels)`; every call
site passes `nil` const labels, kept here as a `List (String × String)`. -/
structure Desc where
  fqName : String
  help : String
  variableLabels : List String
  constLabels : List (String × String)
deriving DecidableEq, Repr

/-- `up` descriptor (`src/main.go` lines 20-24). -/
def up : Desc :=
  ⟨buildFQName namespace_ "" "up",
   "Was the last query of Vault successful.", [], []⟩

/-- `initialized` descriptor (`src/main.go` lines 25-29). -/
def initialized : Desc :=
  ⟨buildFQName namespace_ "" "initialized",
   "Is the Vault initialised (according to this node).", [], []⟩

/-- `sealed` descriptor (`src/main.go` lines 30-34). -/
def sealed : Desc :=
  ⟨buildFQName namespace_ "" "sealed",
   "Is the Vault node sealed.", [], []⟩

/-- `standby` descriptor (`src/main.go` lines 35-39). -/
def standby : Desc :=
  ⟨buildFQName namespace_ "" "standby",
   "Is this Vault node in standby.", [], []⟩

/-- `ver` descriptor (`src/main.go` lines 40-44): one variable label `version`. -/
def ver : Desc :=
  ⟨buildFQName namespace_ "" "version",
   "Version of this Vault node.", ["version"], []⟩

/-- `clusterName` descriptor (`src/main.go` lines 45-49): one variable label
`cluster_name`. -/
def clusterName : Desc :=
  ⟨buildFQName namespace_ "" "cluster_name",
   "Cluster name according to this Vault node.", ["cluster_name"], []⟩

/-- `clusterID` descriptor (`src/main.go` lines 50-54): one variable label
`cluster_id`. -/
def clusterID : Desc :=
  ⟨buildFQName namespace_ "" "cluster_id",
   "Cluster ID according to this Vault node.", ["cluster_id"], []⟩

/-- Prometheus value types; `src/main.go` only ever uses `GaugeValue`. -/
inductive ValueType
  | CounterValue
  | GaugeValue
  | UntypedValue
deriving DecidableEq, Repr

/-- The fields of the vault API `HealthResponse` that `src/main.go` reads
(`health.Initialized`, `health.Sealed`, `health.Standby`, `health.Version`,
`health.ClusterName`, `health.ClusterID`); the spec's `HealthSnapshot`. -/
structure HealthResponse where
  initialized : Bool
  sealed : Bool
  standby : Bool
  version : String
  clusterName : String
  clusterID : String
deriving DecidableEq, Repr

/-- The failure causes of the upstream health query named by the spec
("network error, non-2xx, deserialization failure, timeout"); `src/main.go`
only ever inspects `err != nil`, never the cause. -/
inductive HealthError
  | networkError
  | non2xxStatus (code : Nat)
  | deserializationFailure
  | timeout
deriving DecidableEq, Repr

/-- One emitted metric sample, as built by `prometheus.MustNewConstMetric
(desc, valueType, value, labelValues...)`.  A Go `float64` value in this
program is always an exact small integer (0 or 1), embedded as `ℚ`. -/
structure Metric where
  desc : Desc
  valueType : ValueType
  value : ℚ
  labelValues : List String
deriving DecidableEq, Repr

/-- `prometheus.NewConstMetric` from the prometheus client library (external
collaborator): fails unless exactly as many label values are supplied as the
descriptor declares variable label keys; `MustNewConstMetric` panics on that
failure, embedded as `none`. -/
def NewConstMetric (d : Desc) (t : ValueType) (v : ℚ) (labelValues : List String) :
    Option Metric :=
  if labelValues.length = d.variableLabels.length then
    some ⟨d, t, v, labelValues⟩
  else
    none

/-- `bool2float` (`src/main.go` lines 87-92). -/
def bool2float (b : Bool) : ℚ :=
  if b then 1 else 0

/-- The external vault API client; `src/main.go` treats it as opaque: it is
constructed by `vault_api.NewClient(vault_api.DefaultConfig())` and only used
to issue the health query. -/
structure Client where
  address : String
deriving DecidableEq, Repr

/-- `Exporter` (`src/main.go` lines 59-61). -/
structure Exporter where
  client : Client
deriving DecidableEq, Repr

/-- `NewExporter` (`src/main.go` lines 64-73).  The outcome of the external
`vault_api.NewClient(vault_api.DefaultConfig())` call is the input: on its
error `NewExporter` returns that error, otherwise the `Exporter` holding the
new client. -/
def NewExporter (newClient : Except String Client) : Except String Exporter :=
  match newClient with
  | .error err => .error err
  | .ok client => .ok ⟨client⟩

/-- The package-level descriptor variables of `src/main.go` (lines 19-55), the
process-wide metric catalog.  They are part of the mutable process state in
Go, so the state-passing embedding threads them explicitly. -/
structure Descs where
  up : Desc
  initialized : Desc
  sealed : Desc
  standby : Desc
  ver : Desc
  clusterName : Desc
  clusterID : Desc
deriving DecidableEq, Repr

/-- The catalog as initialised at process start. -/
def initialDescs : Descs :=
  ⟨up, initialized, sealed, standby, ver, clusterName, clusterID⟩

/-- `Exporter.Describe` (`src/main.go` lines 77-85) reading the given catalog:
the channel receives the seven descriptors in program order. -/
def describeFrom (ds : Descs) : List Desc :=
  [ds.up, ds.initialized, ds.sealed, ds.standby, ds.ver, ds.clusterName, ds.clusterID]

/-- `Exporter.Describe` against the process-start catalog. -/
def Describe : List Desc :=
  describeFrom initialDescs

/-- `Exporter.Collect` (`src/main.go` lines 96-127) reading the given catalog:
on a health-query error, send `up = 0` and return (the log call is an external
side effect); on success, send the seven samples in program order.  Every send
goes through `NewConstMetric`, so a label-arity mismatch (Go panic) surfaces
as `none`. -/
def collectFrom (ds : Descs) (health : Except HealthError HealthResponse) :
    Option (List Metric) :=
  match health with
  | .error _ => do
      let m0 ← NewConstMetric ds.up .GaugeValue 0 []
      pure [m0]
  | .ok h => do
      let m0 ← NewConstMetric ds.up .GaugeValue 1 []
      let m1 ← NewConstMetric ds.initialized .GaugeValue (bool2float h.initialized) []
      let m2 ← NewConstMetric ds.sealed .GaugeValue (bool2float h.sealed) []
      let m3 ← NewConstMetric ds.standby .GaugeValue (bool2float h.standby) []
      let m4 ← NewConstMetric ds.ver .GaugeValue 1 [h.version]
      let m5 ← NewConstMetric ds.clusterName .GaugeValue 1 [h.clusterName]
      let m6 ← NewConstMetric ds.clusterID .GaugeValue 1 [h.clusterID]
      pure [m0, m1, m2, m3, m4, m5, m6]

/-- `Exporter.Collect` against the process-start catalog, with the Go panic
branch totalised away (`collect_never_panics` below shows it is unreachable). -/
def Collect (health : Except HealthError HealthResponse) : List Metric :=
  (collectFrom initialDescs health).getD []

/-- The whole process state read or written by `Describe` and `Collect`: the
registered exporter and the package-level descriptor catalog. -/
structure ProcessState where
  exporter : Exporter
  descs : Descs
deriving DecidableEq, Repr

/-- The process state right after a successful `main` startup. -/
def initState (c : Client) : ProcessState :=
  ⟨⟨c⟩, initialDescs⟩

/-- `Exporter.Describe` as a state transformer: the method body contains only
channel sends of the package variables, no assignment, so the state after the
call is the state before. -/
def DescribeSt (s : ProcessState) : List Desc × ProcessState :=
  (describeFrom s.descs, s)

/-- `Exporter.Collect` as a state transformer: the body reads `e.client` and
the package descriptors and assigns to neither, so the state after the call is
the state before.  `health` is the outcome of the one upstream query the call
performs. -/
def CollectSt (s : ProcessState) (health : Except HealthError HealthResponse) :
    List Metric × ProcessState :=
  ((collectFrom s.descs health).getD [], s)

/-- A sequence of scrapes: each runs `Collect` once against its own upstream
outcome and the process state it found. -/
def runScrapes (s : ProcessState) (outcomes : List (Except HealthError HealthResponse)) :
    ProcessState :=
  outcomes.foldl (fun st o => (CollectSt st o).2) s

/-- The startup of `main` (`src/main.go` lines 150-154): `log.Fatalln`
terminates the process on a `NewExporter` error, otherwise the exporter is
registered and the process runs. -/
inductive StartupOutcome
  | fatal (err : String)
  | running (e : Exporter)
deriving DecidableEq, Repr

/-- `main`'s construct-or-die step (`src/main.go` lines 150-154). -/
def mainStartup (newClient : Except String Client) : StartupOutcome :=
  match NewExporter newClient with
  | .error err => .fatal err
  | .ok e => .running e

/-! ## Helper lemmas -/

/-- A scrape never changes the process state, so any sequence of scrapes
leaves the state where it started. -/
theorem runScrapes_eq (os : List (Except HealthError HealthResponse)) :
    ∀ s : ProcessState, runScrapes s os = s := by
  induction os with
  | nil => intro s; rfl
  | cons o os ih => intro s; exact ih s

/-! ## Claim theorems -/

/-- C1: On every failed upstream health query — whatever the cause — `Collect`
emits exactly one sample, `up = 0` with no labels, returns normally (the
checked embedding yields `some`, never the panic branch), and produces the
same output for every failure cause. -/
theorem collect_failure_single_up_zero (e : HealthError) :
    Collect (Except.error e) = [⟨up, ValueType.GaugeValue, 0, []⟩]
    ∧ (Collect (Except.error e)).length = 1
    ∧ collectFrom initialDescs (Except.error e) = some (Collect (Except.error e))
    ∧ (∀ e2 : HealthError, Collect (Except.error e2) = Collect (Except.error e)) :=
  ⟨rfl, rfl, rfl, fun _ => rfl⟩

/-- C2: On every successful upstream health query, `Collect` emits exactly 7
samples, the first being `up = 1`; the emitted descriptors are exactly the
catalog; and in both branches exactly one emitted sample is the `up` metric. -/
theorem collect_success_seven_up_first (h : HealthResponse) :
    (Collect (Except.ok h)).length = 7
    ∧ (Collect (Except.ok h)).head? = some ⟨up, ValueType.GaugeValue, 1, []⟩
    ∧ (Collect (Except.ok h)).map Metric.desc = Describe
    ∧ (∀ o : Except HealthError HealthResponse,
        ((Collect o).filter (fun m => m.desc == up)).length = 1) := by
  refine ⟨rfl, rfl, rfl, ?_⟩
  intro o
  cases o with
  | error e => rfl
  | ok h2 => rfl

/-- C3: `Describe` is a pure constant: the same fixed sequence of 7 metric
identities — `up`, `initialized`, `sealed`, `standby` with no label keys, and
`version`, `cluster_name`, `cluster_id` each with the single label key of the
same name — no matter how many scrapes, successful or failed, ran before. -/
theorem describe_schema_stable :
    Describe = [up, initialized, sealed, standby, ver, clusterName, clusterID]
    ∧ Describe.length = 7
    ∧ Describe.map (fun d => (d.fqName, d.variableLabels)) =
        [("vault_up", []), ("vault_initialized", []), ("vault_sealed", []),
         ("vault_standby", []), ("vault_version", ["version"]),
         ("vault_cluster_name", ["cluster_name"]),
         ("vault_cluster_id", ["cluster_id"])]
    ∧ (∀ (c : Client) (outcomes : List (Except HealthError HealthResponse)),
        (DescribeSt (runScrapes (initState c) outcomes)).1 = Describe) := by
  refine ⟨rfl, rfl, by decide, ?_⟩
  intro c outcomes
  rw [runScrapes_eq]
  rfl

/-- C4: On every successful snapshot the `initialized`, `sealed` and `standby`
samples carry the snapshot booleans through `bool2float`: value 1 when the
field is true, 0 when false. -/
theorem collect_bool_mapping (h : HealthResponse) :
    (Collect (Except.ok h))[1]? =
        some ⟨initialized, ValueType.GaugeValue, if h.initialized then 1 else 0, []⟩
    ∧ (Collect (Except.ok h))[2]? =
        some ⟨sealed, ValueType.GaugeValue, if h.sealed then 1 else 0, []⟩
    ∧ (Collect (Except.ok h))[3]? =
        some ⟨standby, ValueType.GaugeValue, if h.standby then 1 else 0, []⟩
    ∧ bool2float true = 1 ∧ bool2float false = 0 :=
  ⟨rfl, rfl, rfl, rfl, rfl⟩

/-- C5: On every successful snapshot the `version`, `cluster_name` and
`cluster_id` samples each have value exactly 1, and their single label value
is the corresponding snapshot string field, whatever string it holds. -/
theorem collect_info_pattern (h : HealthResponse) :
    (Collect (Except.ok h))[4]? =
        some ⟨ver, ValueType.GaugeValue, 1, [h.version]⟩
    ∧ (Collect (Except.ok h))[5]? =
        some ⟨clusterName, ValueType.GaugeValue, 1, [h.clusterName]⟩
    ∧ (Collect (Except.ok h))[6]? =
        some ⟨clusterID, ValueType.GaugeValue, 1, [h.clusterID]⟩ :=
  ⟨rfl, rfl, rfl⟩

/-- C6: `Collect` is idempotent under repetition: a second call from the state
the first call left behind, against the same unchanged upstream outcome,
yields a sample sequence equal in every metric identity, value and label
value, and the same state again. -/
theorem collect_idempotent (s : ProcessState) (o : Except HealthError HealthResponse) :
    (CollectSt ((CollectSt s o).2) o).1 = (CollectSt s o).1
    ∧ (CollectSt ((CollectSt s o).2) o).2 = (CollectSt s o).2 :=
  ⟨rfl, rfl⟩

/-- C7: On every successful scrape the samples come out in catalog order —
`up`, `initialized`, `sealed`, `standby`, `version`, `cluster_name`,
`cluster_id` — identical on every call and identical to the order in which
`Describe` emits the corresponding identities. -/
theorem collect_order_matches_describe (h : HealthResponse) :
    (Collect (Except.ok h)).map Metric.desc =
        [up, initialized, sealed, standby, ver, clusterName, clusterID]
    ∧ (Collect (Except.ok h)).map Metric.desc = Describe
    ∧ (∀ h2 : HealthResponse,
        (Collect (Except.ok h2)).map Metric.desc =
          (Collect (Except.ok h)).map Metric.desc) :=
  ⟨rfl, rfl, fun _ => rfl⟩

/-- C8: `NewExporter` errors exactly when client construction errored, and
otherwise returns the exporter holding that client; `main` dies only on that
startup error, and neither `Describe` (a total constant) nor `Collect` (its
checked embedding always returns `some`) can fail afterwards. -/
theorem newExporter_only_fatal_error :
    (∀ err : String,
        NewExporter (Except.error err) = Except.error err
        ∧ mainStartup (Except.error err) = StartupOutcome.fatal err)
    ∧ (∀ c : Client,
        NewExporter (Except.ok c) = Except.ok ⟨c⟩
        ∧ mainStartup (Except.ok c) = StartupOutcome.running ⟨c⟩)
    ∧ (∀ o : Except HealthError HealthResponse,
        (collectFrom initialDescs o).isSome = true) := by
  refine ⟨fun _ => ⟨rfl, rfl⟩, fun _ => ⟨rfl, rfl⟩, ?_⟩
  intro o
  cases o with
  | error e => rfl
  | ok h => rfl

/-- C9: Scrapes carry no state: `Collect` and `Describe` leave the exporter's
client and the descriptor catalog untouched, any sequence of scrapes leaves
the process state at its initial value, and the sample sequence depends only
on the upstream outcome and the (constant) catalog, not on the exporter. -/
theorem collect_describe_no_mutation (s : ProcessState)
    (o : Except HealthError HealthResponse) :
    (CollectSt s o).2 = s
    ∧ (DescribeSt s).2 = s
    ∧ (CollectSt s o).2.exporter.client = s.exporter.client
    ∧ (CollectSt s o).2.descs = s.descs
    ∧ (∀ (c : Client) (outcomes : List (Except HealthError HealthResponse)),
        runScrapes (initState c) outcomes = initState c)
    ∧ (∀ e2 : Exporter, (CollectSt ⟨e2, s.descs⟩ o).1 = (CollectSt s o).1) :=
  ⟨rfl, rfl, rfl, rfl, fun c outcomes => runScrapes_eq outcomes (initState c),
   fun _ => rfl⟩

/-- C10: The panic branch of `MustNewConstMetric` is unreachable in `Collect`:
for every upstream outcome — empty snapshot strings included — every
construction supplies exactly as many label values as its descriptor declares
label keys, so the checked embedding returns `some` of the total one's output
and every emitted sample's label arity matches its descriptor. -/
theorem collect_label_arity_total (o : Except HealthError HealthResponse) :
    (collectFrom initialDescs o).isSome = true
    ∧ collectFrom initialDescs o = some (Collect o)
    ∧ ((Collect o).all
        (fun m => m.labelValues.length == m.desc.variableLabels.length)) = true := by
  cases o with
  | error e => exact ⟨rfl, rfl, rfl⟩
  | ok h => exact ⟨rfl, rfl, rfl⟩

end VaultExporter
